import Mathlib

/-!
Verification development for the e-commerce scraping program `app/parse.py`.

The program drives a browser session over a fixed set of catalog listing
pages, extracts product records from rendered cards, resolves per-variant
prices on product detail pages, and writes one CSV table per section.

We give a shallow embedding: the browser environment (which elements are
present on a page, how clicks behave, what text elements carry) is data, and
each Python function becomes a Lean function over that data.  Python
exceptions become `Except Exc`; the process-wide driver global becomes
explicit state passing.  Machine reals (`float`) are modelled as exact
rationals; the claims proved below do not depend on rounding.
-/

namespace EcomScrape

/-- Exceptions that the embedded code can raise, mirroring the Python
exception classes that appear in `app/parse.py`. -/
inductive Exc where
  /-- `selenium.common.exceptions.TimeoutException`, raised by `WebDriverWait.until`. -/
  | timeout
  /-- `selenium.common.exceptions.NoSuchElementException`, raised by `find_element`. -/
  | noSuchElement
  /-- `selenium.common.exceptions.ElementNotInteractableException`. -/
  | elementNotInteractable
  /-- `selenium.common.exceptions.ElementClickInterceptedException`, raised by `click`. -/
  | clickIntercepted
  /-- Python `ValueError`, raised by `int()` / `float()` on malformed text. -/
  | valueError
  /-- Python `TypeError`, raised by subscripting `None` (absent element). -/
  | typeError
  /-- Python `KeyError`, raised by a missing tag attribute subscript. -/
  | keyError
  /-- Python `AttributeError`, raised by `.text` on `None` (absent element). -/
  | attributeError
  /-- Python `IndexError`, raised by `[0]` on an empty token list. -/
  | indexError
deriving DecidableEq

/-- Decidable equality of `Except` results, so that concrete runs of the
embedded code can be checked by `decide`. -/
instance {ε α : Type} [DecidableEq ε] [DecidableEq α] :
    DecidableEq (Except ε α) := fun a b =>
  match a, b with
  | Except.error e, Except.error f =>
    if h : e = f then Decidable.isTrue (by rw [h])
    else Decidable.isFalse (by intro hc; cases hc; exact h rfl)
  | Except.error _, Except.ok _ => Decidable.isFalse (by intro hc; cases hc)
  | Except.ok _, Except.error _ => Decidable.isFalse (by intro hc; cases hc)
  | Except.ok x, Except.ok y =>
    if h : x = y then Decidable.isTrue (by rw [h])
    else Decidable.isFalse (by intro hc; cases hc; exact h rfl)

/- ### Python text primitives

`int()`, `float()`, `str.split()` and `str.replace("$", "")` are modelled
over character lists so that every definition reduces by computation. -/

/-- Strip leading and trailing whitespace, as Python `int()`/`float()` do
before parsing. -/
def trimWs (cs : List Char) : List Char :=
  ((cs.dropWhile (fun c => c.isWhitespace)).reverse.dropWhile
    (fun c => c.isWhitespace)).reverse

/-- A nonempty all-digit character list. -/
def isDigits (cs : List Char) : Bool :=
  !cs.isEmpty && cs.all (fun c => c.isDigit)

/-- Numeric value of a digit list, most significant first. -/
def digitsVal (cs : List Char) : Nat :=
  cs.foldl (fun n c => n * 10 + (c.toNat - 48)) 0

/-- Python `int(s)` on decimal text: optional sign, then digits; surrounding
whitespace ignored; anything else raises `ValueError` (here: `none`). -/
def pyInt (s : String) : Option Int :=
  match trimWs s.toList with
  | '-' :: rest => if isDigits rest then some (-(digitsVal rest : Int)) else none
  | '+' :: rest => if isDigits rest then some (digitsVal rest : Int) else none
  | cs => if isDigits cs then some (digitsVal cs : Int) else none

/-- The exact rational value of a signed decimal literal with integer part
`a` and fractional part `b` (as digit lists). -/
def decValue (sgn : Int) (a b : List Char) : Rat :=
  mkRat (sgn * ((digitsVal a * 10 ^ b.length + digitsVal b : Nat) : Int))
    (10 ^ b.length)

/-- Sign-stripped body of `float(s)`: digits with at most one dot, at least
one digit overall. -/
def pyFloatBody (sgn : Int) (body : List Char) : Option Rat :=
  match body.splitOn '.' with
  | [a] => if isDigits a then some (decValue sgn a []) else none
  | [a, b] =>
      if decide (0 < a.length + b.length) &&
          a.all (fun c => c.isDigit) && b.all (fun c => c.isDigit) then
        some (decValue sgn a b)
      else none
  | _ => none

/-- Python `float(s)` on the plain decimal forms this program meets:
optional sign, digits with at most one dot, at least one digit overall.
The value is represented exactly as a rational. -/
def pyFloat (s : String) : Option Rat :=
  match trimWs s.toList with
  | '-' :: rest => pyFloatBody (-1) rest
  | '+' :: rest => pyFloatBody 1 rest
  | cs => pyFloatBody 1 cs

/-- Helper for `str.split()` with no argument: accumulate the current run of
non-whitespace characters (reversed) and emit completed tokens. -/
def splitWsAux : List Char → List Char → List String
  | [], [] => []
  | [], cur => [String.mk cur.reverse]
  | c :: cs, cur =>
    if c.isWhitespace then
      match cur with
      | [] => splitWsAux cs []
      | _ => String.mk cur.reverse :: splitWsAux cs []
    else splitWsAux cs (c :: cur)

/-- Python `s.split()`: split on runs of whitespace, discarding empties. -/
def pySplit (s : String) : List String :=
  splitWsAux s.toList []

/-- Python `s.replace("$", "")`: delete every occurrence of the currency
symbol (the pattern is a single character, so this is a character filter). -/
def stripDollar (s : String) : String :=
  String.mk (s.toList.filter (fun c => c != '$'))

/- ### The cookie-banner environment and `close_cookie_banner` -/

/-- How the cookie-banner overlay behaves on one rendered page: these three
flags determine the outcome of every browser call inside
`close_cookie_banner`. -/
structure BannerEnv where
  /-- `WebDriverWait(driver, 10).until(presence_of_element_located(#cookieBanner))`
  succeeds, i.e. the banner appears within the 10-second wait. -/
  bannerAppears : Bool
  /-- `find_element(By.ID, "cookieBanner").find_element(By.TAG_NAME, "button")`
  succeeds, i.e. the banner contains a button element. -/
  buttonFound : Bool
  /-- `WebDriverWait(driver, 10).until(element_to_be_clickable(#cookieBanner))`
  succeeds within the 10-second wait. -/
  bannerClickable : Bool
deriving DecidableEq

/-- The `try` body of `close_cookie_banner` (parse.py lines 53-68): wait for
the banner, locate its button, wait for clickability, then dismiss it with a
script-level click (which always succeeds).  `WebDriverWait.until` raises
`TimeoutException` on expiry; `find_element` raises `NoSuchElementException`. -/
def close_cookie_banner_body (env : BannerEnv) : Except Exc Unit :=
  if env.bannerAppears = false then Except.error Exc.timeout
  else if env.buttonFound = false then Except.error Exc.noSuchElement
  else if env.bannerClickable = false then Except.error Exc.timeout
  else Except.ok ()

/-- `close_cookie_banner` (parse.py lines 52-70): run the body and swallow
exactly `NoSuchElementException` and `ElementNotInteractableException`
(the `except` clause); every other exception propagates to the caller. -/
def close_cookie_banner (env : BannerEnv) : Except Exc Unit :=
  match close_cookie_banner_body env with
  | Except.error Exc.noSuchElement => Except.ok ()
  | Except.error Exc.elementNotInteractable => Except.ok ()
  | r => r

/- ### Product cards and product records -/

/-- The `.title` element of a product card: its `href` attribute (detail-page
address) and its `title` attribute, either of which may be absent. -/
structure TitleElem where
  href : Option String
  title_attr : Option String
deriving DecidableEq

/-- One product card's DOM subtree (`product_soup`), as the data
`parse_single_product` / `parse_hdd_block_prices` read from it.  A `none`
models `select_one` finding no element. -/
structure ProductCard where
  /-- `select_one(".title")`. -/
  title : Option TitleElem
  /-- text of `select_one(".description")`. -/
  description : Option String
  /-- text of `select_one(".price")`. -/
  priceText : Option String
  /-- `data-rating` attribute of `select_one("p[data-rating]")`. -/
  ratingAttr : Option String
  /-- text of `select_one(".ratings > p.pull-right")`. -/
  reviewsText : Option String
deriving DecidableEq

/-- The `Product` dataclass (parse.py lines 39-46), field for field. -/
structure Product where
  title : String
  description : String
  price : Rat
  rating : Int
  num_of_reviews : Int
  additional_info : List (String × List (String × Rat))
deriving DecidableEq

/-- The detail-page address taken from the card: present exactly when the
`.title` element exists and carries an `href` attribute (parse.py lines 74-77). -/
def cardHref (card : ProductCard) : Option String :=
  match card.title with
  | none => none
  | some te => te.href

/- ### Variant buttons and `parse_hdd_block_prices` -/

/-- Outcome of one `button.click()` attempt. -/
inductive ClickRes where
  | success
  | intercepted
deriving DecidableEq

/-- One button inside the `.swatches` control group of a detail page,
together with how the environment answers the calls the code makes on it. -/
structure VariantButton where
  /-- `button.get_property("disabled")`. -/
  disabled : Bool
  /-- `button.get_property("value")` — the key used for the price mapping. -/
  value : String
  /-- The button's visible text.  The code never reads it; it is carried so
  that a model page can exhibit `value` and visible text differing. -/
  text : String
  /-- Outcome of the first `button.click()`. -/
  click1 : ClickRes
  /-- Outcome of the retried `button.click()` inside the `except` handler. -/
  click2 : ClickRes
  /-- Text of `find_element(By.CLASS_NAME, "price")` after this button was
  activated; `none` models the price element being absent. -/
  priceDisplay : Option String
deriving DecidableEq

/-- One product detail page as the resolver sees it: its cookie-banner
behaviour and its `.swatches` control group (`none` models
`find_element(By.CLASS_NAME, "swatches")` raising `NoSuchElementException`). -/
structure DetailPage where
  env : BannerEnv
  swatches : Option (List VariantButton)

/-- Python `prices[key] = v` on a dict rendered as an association list in
insertion order: overwrite in place when the key exists, append otherwise. -/
def dictInsert (m : List (String × Rat)) (k : String) (v : Rat) :
    List (String × Rat) :=
  if m.any (fun q => q.1 = k) then
    m.map (fun q => if q.1 = k then (k, v) else q)
  else m ++ [(k, v)]

/-- The `try: button.click() / except ElementClickInterceptedException:
close_cookie_banner(); button.click()` block (parse.py lines 88-92).
Returns the outcome together with how many times `close_cookie_banner` was
invoked and how many click attempts were made on the button. -/
def clickWithRetry (env : BannerEnv) (b : VariantButton) :
    Except Exc Unit × Nat × Nat :=
  match b.click1 with
  | ClickRes.success => (Except.ok (), 0, 1)
  | ClickRes.intercepted =>
    match close_cookie_banner env with
    | Except.error e => (Except.error e, 1, 1)
    | Except.ok _ =>
      match b.click2 with
      | ClickRes.success => (Except.ok (), 1, 2)
      | ClickRes.intercepted => (Except.error Exc.clickIntercepted, 1, 2)

/-- `float(driver.find_element(By.CLASS_NAME, "price").text.replace("$", ""))`
after activating button `b` (parse.py lines 93-95). -/
def readPrice (b : VariantButton) : Except Exc Rat :=
  match b.priceDisplay with
  | none => Except.error Exc.noSuchElement
  | some s =>
    match pyFloat (stripDollar s) with
    | none => Except.error Exc.valueError
    | some v => Except.ok v

/-- The `for button in buttons` loop of `parse_hdd_block_prices` (parse.py
lines 87-95), with `acc` the `prices` dict built so far.  Disabled buttons
are skipped; any exception aborts the whole loop. -/
def loopButtons (env : BannerEnv) (acc : List (String × Rat)) :
    List VariantButton → Except Exc (List (String × Rat))
  | [] => Except.ok acc
  | b :: rest =>
    if b.disabled then loopButtons env acc rest
    else
      match (clickWithRetry env b).1 with
      | Except.error e => Except.error e
      | Except.ok _ =>
        match readPrice b with
        | Except.error e => Except.error e
        | Except.ok v => loopButtons env (dictInsert acc b.value v) rest

/-- `parse_hdd_block_prices` (parse.py lines 73-97).  The second component
records whether the session navigated to a detail page (`driver.get` ran),
so that "returns immediately without touching the session" is expressible. -/
def parse_hdd_block_prices (card : ProductCard) (page : DetailPage) :
    Except Exc (List (String × Rat)) × Bool :=
  match cardHref card with
  | none => (Except.ok [], false)
  | some _ =>
    match close_cookie_banner page.env with
    | Except.error e => (Except.error e, true)
    | Except.ok _ =>
      match page.swatches with
      | none => (Except.error Exc.noSuchElement, true)
      | some btns => (loopButtons page.env [] btns, true)

/- ### `parse_single_product` -/

/-- The review-count computation of `parse_single_product` (parse.py lines
103-106): absent element defaults to 0; otherwise `int` of the first
whitespace-delimited token, where `[0]` on no tokens raises `IndexError`
and a malformed token raises `ValueError`. -/
def numOfReviews (card : ProductCard) : Except Exc Int :=
  match card.reviewsText with
  | none => Except.ok 0
  | some t =>
    match pySplit t with
    | [] => Except.error Exc.indexError
    | tok :: _ =>
      match pyInt tok with
      | none => Except.error Exc.valueError
      | some n => Except.ok n

/-- `parse_single_product` (parse.py lines 100-115), with field expressions
evaluated in Python order: variant prices, review count, then the
constructor arguments title, description, price, rating.  Subscripting an
absent element raises `TypeError`, a missing attribute `KeyError`, `.text`
on `None` `AttributeError`, malformed numeric text `ValueError`. -/
def parse_single_product (card : ProductCard) (page : DetailPage) :
    Except Exc Product :=
  match (parse_hdd_block_prices card page).1 with
  | Except.error e => Except.error e
  | Except.ok hdd_prices =>
    match numOfReviews card with
    | Except.error e => Except.error e
    | Except.ok n =>
      match card.title with
      | none => Except.error Exc.typeError
      | some te =>
        match te.title_attr with
        | none => Except.error Exc.keyError
        | some titl =>
          match card.description with
          | none => Except.error Exc.attributeError
          | some desc =>
            match card.priceText with
            | none => Except.error Exc.attributeError
            | some pt =>
              match pyFloat (stripDollar pt) with
              | none => Except.error Exc.valueError
              | some pr =>
                match card.ratingAttr with
                | none => Except.error Exc.typeError
                | some ra =>
                  match pyInt ra with
                  | none => Except.error Exc.valueError
                  | some rt =>
                    Except.ok
                      { title := titl
                        description := desc
                        price := pr
                        rating := rt
                        num_of_reviews := n
                        additional_info := [("hdd_prices", hdd_prices)] }

/- ### Listing pages and `scrape_page` -/

/-- One card on a listing page bundled with the detail page behind its link
(the environment `parse_hdd_block_prices` meets if it navigates there). -/
structure CardEnv where
  card : ProductCard
  detail : DetailPage

/-- `get_single_page_products` (parse.py lines 124-126): parse every
`.thumbnail` card of the snapshot in order; the first exception aborts the
comprehension and propagates. -/
def get_single_page_products : List CardEnv → Except Exc (List Product)
  | [] => Except.ok []
  | c :: rest =>
    match parse_single_product c.card c.detail with
    | Except.error e => Except.error e
    | Except.ok p =>
      match get_single_page_products rest with
      | Except.error e => Except.error e
      | Except.ok ps => Except.ok (p :: ps)

/-- A listing page as `scrape_page` interacts with it: the cards rendered
after the initial load, and, for each successive click of the `.btn-more`
reveal control, the cards that click appends to the same page.  The control
is found by `find_elements(By.CLASS_NAME, "btn-more")` exactly as long as
reveal batches remain. -/
structure ListingPage where
  initialCards : List CardEnv
  reveals : List (List CardEnv)

/-- The `while True` loop of `scrape_page` (parse.py lines 134-144):
re-snapshot the page, extract every visible card, then click the reveal
control if present (appending the next batch) or break.  `cards` is the
full visible card set, `acc` the `products` list accumulated so far. -/
def scrape_page_loop (cards : List CardEnv) :
    List (List CardEnv) → List Product → Except Exc (List Product)
  | [], acc =>
    match get_single_page_products cards with
    | Except.error e => Except.error e
    | Except.ok ps => Except.ok (acc ++ ps)
  | newCards :: rest, acc =>
    match get_single_page_products cards with
    | Except.error e => Except.error e
    | Except.ok ps => scrape_page_loop (cards ++ newCards) rest (acc ++ ps)

/-- `scrape_page` (parse.py lines 129-146): navigate to the listing, settle,
then run the extract-and-reveal loop starting from the initial card set. -/
def scrape_page (pg : ListingPage) : Except Exc (List Product) :=
  scrape_page_loop pg.initialCards pg.reveals []

/- ### CSV output -/

/-- One CSV cell as `csv.writer` receives it from `astuple(product)`:
the header cells are strings, a data row carries the field values in their
native types. -/
inductive Cell where
  | str : String → Cell
  | num : Rat → Cell
  | int : Int → Cell
  | info : List (String × List (String × Rat)) → Cell
deriving DecidableEq

/-- `PRODUCT_FIELDS` (parse.py line 49): the dataclass field names in
declaration order. -/
def PRODUCT_FIELDS : List String :=
  ["title", "description", "price", "rating", "num_of_reviews", "additional_info"]

/-- `astuple(product)`: the record's field values in declaration order. -/
def astuple (p : Product) : List Cell :=
  [Cell.str p.title, Cell.str p.description, Cell.num p.price,
   Cell.int p.rating, Cell.int p.num_of_reviews, Cell.info p.additional_info]

/-- `write_products_to_csv` (parse.py lines 149-153): the rows of the
produced table — a header row of the field names followed by one data row
per product. -/
def write_products_to_csv (products : List Product) : List (List Cell) :=
  (PRODUCT_FIELDS.map Cell.str) :: products.map astuple

/- ### The catalog sections and `get_all_products` -/

/-- `BASE_URL` (parse.py line 18). -/
def BASE_URL : String := "https://webscraper.io/"

/-- `urllib.parse.urljoin` restricted to the shapes this program uses: a
base ending in a slash joined with a relative path is their concatenation. -/
def urljoin (base path : String) : String := base ++ path

/-- `PRODUCT_PAGES` (parse.py lines 19-26): the static section mapping, in
insertion order. -/
def PRODUCT_PAGES : List (String × String) :=
  [("home", urljoin BASE_URL "test-sites/e-commerce/more/"),
   ("computers", urljoin BASE_URL "test-sites/e-commerce/static/computers/"),
   ("laptops", urljoin BASE_URL "test-sites/e-commerce/static/computers/laptops"),
   ("tablets", urljoin BASE_URL "test-sites/e-commerce/static/computers/tablets"),
   ("phones", urljoin BASE_URL "test-sites/e-commerce/static/phones"),
   ("touch", urljoin BASE_URL "test-sites/e-commerce/static/phones/touch")]

/-- The `for page_name, url in PRODUCT_PAGES.items()` loop of
`get_all_products` (parse.py lines 156-159) over an arbitrary section list.
`world` maps a section url to the listing page the browser finds there.
Returns the `.csv` files written (name and rows, in writing order) and the
exception that escaped the loop, if any.  There is no `try` in the source:
the first failing section aborts the loop, so no later file is written. -/
def run_sections (world : String → ListingPage) :
    List (String × String) → List (String × List (List Cell)) × Option Exc
  | [] => ([], none)
  | (page_name, url) :: rest =>
    match scrape_page (world url) with
    | Except.error e => ([], some e)
    | Except.ok products =>
      let r := run_sections world rest
      ((page_name ++ ".csv", write_products_to_csv products) :: r.1, r.2)

/-- `get_all_products` (parse.py lines 156-159): the loop over the static
`PRODUCT_PAGES` mapping. -/
def get_all_products (world : String → ListingPage) :
    List (String × List (List Cell)) × Option Exc :=
  run_sections world PRODUCT_PAGES

/- ### The process-wide driver handle -/

/-- The browser session object; only its identity matters here. -/
structure WebDriver where
  id : Nat
deriving DecidableEq

/-- The module-level `_driver: WebDriver | None = None` (parse.py line 28)
at process start. -/
def driverStart : Option WebDriver := none

/-- `get_driver` (parse.py lines 31-32): read the ambient global. -/
def get_driver (s : Option WebDriver) : Option WebDriver := s

/-- `set_driver` (parse.py lines 34-36): overwrite the ambient global. -/
def set_driver (new_driver : WebDriver) (_s : Option WebDriver) :
    Option WebDriver :=
  some new_driver

/- ### Concrete pages used by counterexamples and witnesses -/

/-- A page whose cookie banner appears, has a button, and becomes clickable. -/
def benvOK : BannerEnv :=
  { bannerAppears := true, buttonFound := true, bannerClickable := true }

/-- A page whose cookie banner never appears within the 10-second wait. -/
def benvAbsent : BannerEnv :=
  { bannerAppears := false, buttonFound := true, bannerClickable := true }

/-- A well-formed card with no detail link and no review-count element. -/
def cardA : ProductCard :=
  { title := some { href := none, title_attr := some "Asus VivoBook" }
    description := some "Asus VivoBook 15"
    priceText := some "$295.99"
    ratingAttr := some "3"
    reviewsText := none }

/-- A well-formed card with no detail link and a review-count element. -/
def cardB : ProductCard :=
  { title := some { href := none, title_attr := some "HP 250 G3" }
    description := some "HP 250 G3 15.6 inch"
    priceText := some "$520"
    ratingAttr := some "4"
    reviewsText := some "2 reviews" }

/-- A card whose `.title` element is missing: extraction is fatal on it. -/
def cardBroken : ProductCard :=
  { title := none, description := some "d", priceText := some "$1",
    ratingAttr := some "1", reviewsText := none }

/-- A card with a detail link. -/
def cardH : ProductCard :=
  { title := some { href := some "/test-sites/e-commerce/static/product/31",
                    title_attr := some "Acer Aspire 3" }
    description := some "Acer Aspire 3 A315"
    priceText := some "$494.71"
    ratingAttr := some "2"
    reviewsText := some "9 reviews" }

/-- Detail page behind a card that has no link; never visited. -/
def detailUnused : DetailPage := { env := benvOK, swatches := none }

def ceA : CardEnv := { card := cardA, detail := detailUnused }

def ceB : CardEnv := { card := cardB, detail := detailUnused }

/-- The record `parse_single_product` builds from `cardA`. -/
def prodA : Product :=
  { title := "Asus VivoBook", description := "Asus VivoBook 15",
    price := mkRat 29599 100, rating := 3, num_of_reviews := 0,
    additional_info := [("hdd_prices", [])] }

/-- The record `parse_single_product` builds from `cardB`. -/
def prodB : Product :=
  { title := "HP 250 G3", description := "HP 250 G3 15.6 inch",
    price := mkRat 520 1, rating := 4, num_of_reviews := 2,
    additional_info := [("hdd_prices", [])] }

/-- A listing with one initial card whose reveal control, clicked once,
appends exactly one new card (N = 1, K = 1 in the claim's terms). -/
def listingC1 : ListingPage := { initialCards := [ceA], reveals := [[ceB]] }

/-- A listing whose single card is malformed, so its traversal fails. -/
def listingBroken : ListingPage :=
  { initialCards := [{ card := cardBroken, detail := detailUnused }], reveals := [] }

/-- A listing with no cards and no reveal control. -/
def listingEmpty : ListingPage := { initialCards := [], reveals := [] }

/-- A world where the first section ("home") fails and every other section
is fine. -/
def worldHomeBroken : String → ListingPage := fun url =>
  if url = urljoin BASE_URL "test-sites/e-commerce/more/" then listingBroken
  else listingEmpty

/-- A world where the third section ("laptops") fails and every other
section is fine. -/
def worldLaptopsBroken : String → ListingPage := fun url =>
  if url = urljoin BASE_URL "test-sites/e-commerce/static/computers/laptops" then
    listingBroken
  else listingEmpty

/-- A detail page with no `.swatches` control group. -/
def pageNoSwatches : DetailPage := { env := benvOK, swatches := none }

/-- A disabled variant button. -/
def btnDis : VariantButton :=
  { disabled := true, value := "256GB", text := "256 GB SSD",
    click1 := ClickRes.success, click2 := ClickRes.success,
    priceDisplay := some "$100" }

/-- An enabled variant button whose value differs from its visible text. -/
def btn128 : VariantButton :=
  { disabled := false, value := "128GB", text := "128 GB SSD",
    click1 := ClickRes.success, click2 := ClickRes.success,
    priceDisplay := some "$100" }

/-- An enabled variant button whose value differs from its visible text. -/
def btn512 : VariantButton :=
  { disabled := false, value := "512GB", text := "512 GB SSD",
    click1 := ClickRes.success, click2 := ClickRes.success,
    priceDisplay := some "$200" }

/-- An enabled variant button sharing its value with `btn128`. -/
def btnDup : VariantButton :=
  { disabled := false, value := "128GB", text := "128 GB HDD",
    click1 := ClickRes.success, click2 := ClickRes.success,
    priceDisplay := some "$200" }

/-- An enabled button whose activation is intercepted on both attempts. -/
def btnStubborn : VariantButton :=
  { disabled := false, value := "512GB", text := "512 GB SSD",
    click1 := ClickRes.intercepted, click2 := ClickRes.intercepted,
    priceDisplay := some "$400" }

/-- One disabled and two enabled variant buttons with distinct values. -/
def pageVariants : DetailPage :=
  { env := benvOK, swatches := some [btnDis, btn128, btn512] }

/-- Two enabled variant buttons that share one value property. -/
def pageDup : DetailPage := { env := benvOK, swatches := some [btn128, btnDup] }

/-- A variant control group whose only button is disabled. -/
def pageDisabledOnly : DetailPage := { env := benvOK, swatches := some [btnDis] }

/- ## Helper lemmas -/

theorem dictInsert_ne_nil (m : List (String × Rat)) (k : String) (v : Rat) :
    dictInsert m k v ≠ [] := by
  cases m with
  | nil => simp [dictInsert]
  | cons a l => unfold dictInsert; split <;> simp

theorem length_le_dictInsert (m : List (String × Rat)) (k : String) (v : Rat) :
    m.length ≤ (dictInsert m k v).length := by
  unfold dictInsert
  split
  · simp
  · simp

theorem dictInsert_not_mem (m : List (String × Rat)) (k : String) (v : Rat)
    (h : k ∉ m.map Prod.fst) : dictInsert m k v = m ++ [(k, v)] := by
  have h2 : ¬ (m.any (fun q => q.1 = k) = true) := by
    simp only [List.any_eq_true, decide_eq_true_eq]
    rintro ⟨q, hq, rfl⟩
    exact h (List.mem_map.mpr ⟨q, hq, rfl⟩)
  unfold dictInsert
  rw [if_neg h2]

theorem loopButtons_ok_length (env : BannerEnv) :
    ∀ (btns : List VariantButton) (acc m : List (String × Rat)),
      loopButtons env acc btns = Except.ok m → acc.length ≤ m.length := by
  intro btns
  induction btns with
  | nil =>
    intro acc m h
    obtain rfl : acc = m := by simpa [loopButtons] using h
    exact le_refl _
  | cons c rest ih =>
    intro acc m h
    simp only [loopButtons] at h
    by_cases hc : c.disabled = true
    · rw [if_pos hc] at h
      exact ih acc m h
    · rw [if_neg hc] at h
      rcases hcr : (clickWithRetry env c).1 with e | u
      · simp [hcr] at h
      · simp only [hcr] at h
        rcases hrp : readPrice c with e | v
        · simp [hrp] at h
        · simp only [hrp] at h
          exact le_trans (length_le_dictInsert acc c.value v) (ih _ m h)

theorem loopButtons_ok_nil_disabled (env : BannerEnv) :
    ∀ (btns : List VariantButton) (acc : List (String × Rat)),
      loopButtons env acc btns = Except.ok [] → ∀ b ∈ btns, b.disabled = true := by
  intro btns
  induction btns with
  | nil => intro acc _ b hb; cases hb
  | cons c rest ih =>
    intro acc h b hb
    simp only [loopButtons] at h
    by_cases hc : c.disabled = true
    · rw [if_pos hc] at h
      rcases List.mem_cons.mp hb with rfl | hmem
      · exact hc
      · exact ih acc h b hmem
    · exfalso
      rw [if_neg hc] at h
      rcases hcr : (clickWithRetry env c).1 with e | u
      · simp [hcr] at h
      · simp only [hcr] at h
        rcases hrp : readPrice c with e | v
        · simp [hrp] at h
        · simp only [hrp] at h
          have hlen := loopButtons_ok_length env rest _ _ h
          cases hd : dictInsert acc c.value v with
          | nil => exact dictInsert_ne_nil acc c.value v hd
          | cons x xs => rw [hd] at hlen; simp at hlen

theorem loopButtons_all_disabled (env : BannerEnv) :
    ∀ (btns : List VariantButton) (acc : List (String × Rat)),
      (∀ b ∈ btns, b.disabled = true) → loopButtons env acc btns = Except.ok acc := by
  intro btns
  induction btns with
  | nil => intro acc _; rfl
  | cons c rest ih =>
    intro acc h
    simp only [loopButtons]
    rw [if_pos (h c (List.mem_cons_self c rest))]
    exact ih acc (fun b hb => h b (List.mem_cons_of_mem c hb))

theorem loopButtons_keys (env : BannerEnv) :
    ∀ (btns : List VariantButton) (acc m : List (String × Rat)),
      loopButtons env acc btns = Except.ok m →
      (acc.map Prod.fst ++
        (btns.filter (fun b => !b.disabled)).map VariantButton.value).Nodup →
      m.map Prod.fst = acc.map Prod.fst ++
        (btns.filter (fun b => !b.disabled)).map VariantButton.value := by
  intro btns
  induction btns with
  | nil =>
    intro acc m h _
    obtain rfl : acc = m := by simpa [loopButtons] using h
    simp
  | cons c rest ih =>
    intro acc m h hnd
    by_cases hc : c.disabled = true
    · rw [List.filter_cons_of_neg (by simp [hc])] at hnd ⊢
      simp only [loopButtons] at h
      rw [if_pos hc] at h
      exact ih acc m h hnd
    · rw [List.filter_cons_of_pos (by simp [hc])] at hnd ⊢
      simp only [List.map_cons] at hnd ⊢
      simp only [loopButtons] at h
      rw [if_neg hc] at h
      rcases hcr : (clickWithRetry env c).1 with e | u
      · simp [hcr] at h
      · simp only [hcr] at h
        rcases hrp : readPrice c with e | v
        · simp [hrp] at h
        · simp only [hrp] at h
          have hnotin : c.value ∉ acc.map Prod.fst := by
            intro hin
            rcases List.nodup_append.mp hnd with ⟨_, _, hdisj⟩
            exact hdisj hin (List.mem_cons_self _ _)
          rw [dictInsert_not_mem acc c.value v hnotin] at h
          have hkeys : (acc ++ [(c.value, v)]).map Prod.fst =
              acc.map Prod.fst ++ [c.value] := by simp
          have hnd2 : ((acc ++ [(c.value, v)]).map Prod.fst ++
              (rest.filter (fun b => !b.disabled)).map VariantButton.value).Nodup := by
            rw [hkeys, List.append_assoc, List.singleton_append]
            exact hnd
          have := ih (acc ++ [(c.value, v)]) m h hnd2
          rw [this, hkeys, List.append_assoc, List.singleton_append]

/- ## Claims -/

/-- Claim C1: the spec requires that a traversal whose reveal control is
clicked N times, each click appending exactly K new cards, return
initial_count + N·K records with no duplicated card content.  The code
re-extracts the full visible card set on every loop cycle, so on a listing
with one initial card and one reveal click appending one new card
(N = 1, K = 1) it returns three records, the first card twice — the claim's
predicted two distinct records do not happen.  This evaluates `scrape_page`
at that failing input. -/
theorem C1_scrape_page_reextracts :
    scrape_page listingC1 = Except.ok [prodA, prodA, prodB] ∧
    ¬ ([prodA, prodA, prodB] : List Product).Nodup ∧
    ([prodA, prodA, prodB] : List Product).length ≠ 1 + 1 * 1 := by
  refine ⟨by decide, by decide, by decide⟩

/-- Claim C2, counterexample: with the first section's traversal failing
(`worldHomeBroken`), `get_all_products` writes no file at all — in
particular the "computers" section, whose traversal would have succeeded
(second conjunct), is never traversed and produces no output artifact,
contradicting the claim that remaining sections still produce their files. -/
theorem C2_counterexample :
    get_all_products worldHomeBroken = ([], some Exc.typeError) ∧
    scrape_page (worldHomeBroken
      (urljoin BASE_URL "test-sites/e-commerce/static/computers/")) =
      Except.ok [] := by
  refine ⟨by decide, by decide⟩

/-- Claim C2, amended: `get_all_products` has no per-section error handling,
so the first failing section aborts the loop: the failure propagates,
sections already completed keep their output files (in order), and the
failing section and all later ones produce none. -/
theorem C2_section_failure_aborts (world : String → ListingPage)
    (pre : List (String × String)) (n u : String)
    (post : List (String × String)) (e : Exc)
    (hpre : ∀ p ∈ pre, ∃ ps, scrape_page (world p.2) = Except.ok ps)
    (hfail : scrape_page (world u) = Except.error e) :
    (run_sections world (pre ++ (n, u) :: post)).2 = some e ∧
    (run_sections world (pre ++ (n, u) :: post)).1.map Prod.fst =
      pre.map (fun p => p.1 ++ ".csv") := by
  induction pre with
  | nil => simp [run_sections, hfail]
  | cons p ps ih =>
    obtain ⟨qs, hq⟩ := hpre p (List.mem_cons_self p ps)
    have ih2 := ih (fun q hq2 => hpre q (List.mem_cons_of_mem p hq2))
    simp only [List.cons_append, run_sections, hq, List.map_cons]
    exact ⟨ih2.1, congrArg (fun l => (p.1 ++ ".csv") :: l) ih2.2⟩

/-- Witness for the amended C2: in `worldLaptopsBroken` the run fails at the
third section, "home.csv" and "computers.csv" are still written, and
"tablets"/"phones"/"touch" produce nothing. -/
theorem C2_section_failure_aborts_witness :
    (get_all_products worldLaptopsBroken).2 = some Exc.typeError ∧
    (get_all_products worldLaptopsBroken).1.map Prod.fst =
      ["home.csv", "computers.csv"] :=
  C2_section_failure_aborts worldLaptopsBroken
    [("home", urljoin BASE_URL "test-sites/e-commerce/more/"),
     ("computers", urljoin BASE_URL "test-sites/e-commerce/static/computers/")]
    "laptops" (urljoin BASE_URL "test-sites/e-commerce/static/computers/laptops")
    [("tablets", urljoin BASE_URL "test-sites/e-commerce/static/computers/tablets"),
     ("phones", urljoin BASE_URL "test-sites/e-commerce/static/phones"),
     ("touch", urljoin BASE_URL "test-sites/e-commerce/static/phones/touch")]
    Exc.typeError
    (by
      intro p hp
      simp only [List.mem_cons, List.mem_singleton] at hp
      rcases hp with rfl | rfl | h
      · exact ⟨[], by decide⟩
      · exact ⟨[], by decide⟩
      · cases h)
    (by decide)

/-- Claim C3: the spec says an overlay that never appears within the
10-unit wait is non-fatal and never surfaced.  The code's `except` clause
catches only `NoSuchElementException` and `ElementNotInteractableException`,
but the expired `WebDriverWait` raises `TimeoutException`, which therefore
propagates to the caller (the handler's own message, "not interactable or
not present", shows silence was the intent).  Evaluated at the failing
input; the second conjunct shows the nearby caught case (banner present,
dismiss button missing) does degrade silently. -/
theorem C3_timeout_not_caught :
    close_cookie_banner benvAbsent = Except.error Exc.timeout ∧
    close_cookie_banner
      { bannerAppears := true, buttonFound := false, bannerClickable := true } =
      Except.ok () := by
  refine ⟨by decide, by decide⟩

/-- Claim C4, counterexample: for a card with a linkable detail page whose
detail page has no `.swatches` control block, `parse_hdd_block_prices` does
not return the empty mapping — `find_element(By.CLASS_NAME, "swatches")`
raises `NoSuchElementException`, which propagates. -/
theorem C4_counterexample :
    parse_hdd_block_prices cardH pageNoSwatches =
      (Except.error Exc.noSuchElement, true) := by
  decide

/-- Claim C4, amended: for a card with a linkable detail page (on a page
whose overlay dismissal returns normally), absence of the variant control
block raises an element-lookup error rather than yielding an empty mapping;
when the block is present, the call returns the empty mapping exactly when
every button in the block is disabled. -/
theorem C4_empty_iff_all_disabled (card : ProductCard) (page : DetailPage)
    (hhref : (cardHref card).isSome = true)
    (hban : close_cookie_banner page.env = Except.ok ()) :
    (page.swatches = none →
      parse_hdd_block_prices card page = (Except.error Exc.noSuchElement, true)) ∧
    (∀ btns, page.swatches = some btns →
      ((parse_hdd_block_prices card page).1 = Except.ok [] ↔
        ∀ b ∈ btns, b.disabled = true)) := by
  obtain ⟨u, hu⟩ := Option.isSome_iff_exists.mp hhref
  constructor
  · intro hsw
    simp [parse_hdd_block_prices, hu, hban, hsw]
  · intro btns hsw
    simp only [parse_hdd_block_prices, hu, hban, hsw]
    constructor
    · intro h
      exact loopButtons_ok_nil_disabled page.env btns [] h
    · intro h
      exact loopButtons_all_disabled page.env btns [] h

/-- Witness for the amended C4: on a detail page whose only variant button
is disabled, the resolver returns the empty mapping. -/
theorem C4_empty_iff_all_disabled_witness :
    (parse_hdd_block_prices cardH pageDisabledOnly).1 = Except.ok [] :=
  ((C4_empty_iff_all_disabled cardH pageDisabledOnly (by decide) (by decide)).2
    [btnDis] rfl).mpr (by decide)

/-- Claim C5: when an enabled variant button's activation is intercepted,
the code dismisses the overlay exactly once (one `close_cookie_banner`
call) and retries the activation exactly once (two click attempts in
total); if the retry is intercepted again, the exception aborts the whole
button loop — and the whole `parse_hdd_block_prices` call — rather than
skipping that variant. -/
theorem C5_single_retry_then_propagate (env : BannerEnv) (b : VariantButton)
    (hd : b.disabled = false) (h1 : b.click1 = ClickRes.intercepted)
    (hb : close_cookie_banner env = Except.ok ())
    (h2 : b.click2 = ClickRes.intercepted) :
    clickWithRetry env b = (Except.error Exc.clickIntercepted, 1, 2) ∧
    (∀ acc rest, loopButtons env acc (b :: rest) =
      Except.error Exc.clickIntercepted) ∧
    (∀ (card : ProductCard) (u : String) (rest : List VariantButton),
      cardHref card = some u →
      (parse_hdd_block_prices card { env := env, swatches := some (b :: rest) }).1 =
        Except.error Exc.clickIntercepted) := by
  have hcr : clickWithRetry env b = (Except.error Exc.clickIntercepted, 1, 2) := by
    simp [clickWithRetry, h1, hb, h2]
  have hloop : ∀ acc rest, loopButtons env acc (b :: rest) =
      Except.error Exc.clickIntercepted := by
    intro acc rest
    simp only [loopButtons]
    rw [if_neg (by simp [hd])]
    rw [hcr]
  refine ⟨hcr, hloop, ?_⟩
  intro card u rest hc
  simp only [parse_hdd_block_prices, hc, hb]
  exact hloop [] rest

/-- Witness for C5 at a concrete intercepted button. -/
theorem C5_single_retry_then_propagate_witness :
    clickWithRetry benvOK btnStubborn = (Except.error Exc.clickIntercepted, 1, 2) ∧
    loopButtons benvOK [] [btnStubborn] = Except.error Exc.clickIntercepted ∧
    (parse_hdd_block_prices cardH
      { env := benvOK, swatches := some [btnStubborn] }).1 =
      Except.error Exc.clickIntercepted := by
  have h := C5_single_retry_then_propagate benvOK btnStubborn (by decide)
    (by decide) (by decide) (by decide)
  exact ⟨h.1, h.2.1 [] [], h.2.2 cardH "/test-sites/e-commerce/static/product/31" []
    (by decide)⟩

/-- Claim C6, counterexample: two enabled buttons that share one `value`
property produce a single mapping entry (the later activation overwrites
the earlier key), not one entry per enabled button as the claim states for
every detail page with a variant control group. -/
theorem C6_counterexample :
    (parse_hdd_block_prices cardH pageDup).1 =
      Except.ok [("128GB", mkRat 200 1)] ∧
    (([btn128, btnDup].filter (fun b => !b.disabled)).map
      VariantButton.value).length = 2 := by
  refine ⟨by decide, by decide⟩

/-- Claim C6, amended: whenever `parse_hdd_block_prices` returns a mapping
for a detail page with a variant control group whose enabled buttons have
pairwise distinct `value` properties, the mapping's keys are exactly the
`value` properties of the enabled buttons, in activation order — one entry
per enabled button, and never a key coming from a disabled button. -/
theorem C6_keys_are_enabled_values (card : ProductCard) (page : DetailPage)
    (btns : List VariantButton)
    (hhref : (cardHref card).isSome = true)
    (hnodup : ((btns.filter (fun b => !b.disabled)).map
      VariantButton.value).Nodup)
    (hsw : page.swatches = some btns)
    (m : List (String × Rat))
    (hok : (parse_hdd_block_prices card page).1 = Except.ok m) :
    m.map Prod.fst =
      (btns.filter (fun b => !b.disabled)).map VariantButton.value := by
  obtain ⟨u, hu⟩ := Option.isSome_iff_exists.mp hhref
  rcases hcb : close_cookie_banner page.env with e | v
  · simp [parse_hdd_block_prices, hu, hcb] at hok
  · simp only [parse_hdd_block_prices, hu, hcb, hsw] at hok
    have := loopButtons_keys page.env btns [] m hok (by simpa using hnodup)
    simpa using this

/-- Witness for the amended C6: one disabled and two enabled buttons with
distinct values yield exactly the two enabled values as keys, in order. -/
theorem C6_keys_are_enabled_values_witness :
    ([("128GB", mkRat 100 1), ("512GB", mkRat 200 1)] :
      List (String × Rat)).map Prod.fst =
      (([btnDis, btn128, btn512].filter (fun b => !b.disabled)).map
        VariantButton.value) :=
  C6_keys_are_enabled_values cardH pageVariants [btnDis, btn128, btn512]
    (by decide) (by decide) rfl
    [("128GB", mkRat 100 1), ("512GB", mkRat 200 1)] (by decide)

/-- Claim C7: a card whose title element carries no detail-page address
makes `parse_hdd_block_prices` return the empty mapping immediately, with
no navigation of the session (the navigation flag stays `false`), and the
resulting record's `additional_info` holds an empty `hdd_prices` mapping. -/
theorem C7_no_href_empty_no_navigation (card : ProductCard) (page : DetailPage)
    (h : cardHref card = none) :
    parse_hdd_block_prices card page = (Except.ok [], false) ∧
    ∀ p : Product, parse_single_product card page = Except.ok p →
      p.additional_info = [("hdd_prices", [])] := by
  have h1 : parse_hdd_block_prices card page = (Except.ok [], false) := by
    simp [parse_hdd_block_prices, h]
  refine ⟨h1, ?_⟩
  intro p hp
  unfold parse_single_product at hp
  rw [h1] at hp
  repeat' split at hp
  all_goals simp_all
  all_goals exact (congrArg Product.additional_info hp).symm

/-- Witness for C7 at `cardA`, which has no detail link. -/
theorem C7_no_href_empty_no_navigation_witness :
    parse_hdd_block_prices cardA detailUnused = (Except.ok [], false) ∧
    prodA.additional_info = [("hdd_prices", [])] :=
  ⟨(C7_no_href_empty_no_navigation cardA detailUnused rfl).1,
   (C7_no_href_empty_no_navigation cardA detailUnused rfl).2 prodA (by decide)⟩

/-- Claim C8: a card with no review-count element yields
`num_of_reviews = 0` without raising; with the element present, the first
whitespace-delimited token of its text, parsed as an integer, is the value
— and the record built by `parse_single_product` carries exactly the value
this computation produces. -/
theorem C8_reviews_default_and_parse (card : ProductCard) :
    (card.reviewsText = none → numOfReviews card = Except.ok 0) ∧
    (∀ (t tok : String) (toks : List String) (n : Int),
      card.reviewsText = some t → pySplit t = tok :: toks →
      pyInt tok = some n → numOfReviews card = Except.ok n) ∧
    (∀ (page : DetailPage) (p : Product),
      parse_single_product card page = Except.ok p →
      Except.ok p.num_of_reviews = numOfReviews card) := by
  refine ⟨?_, ?_, ?_⟩
  · intro h; simp [numOfReviews, h]
  · intro t tok toks n ht hs hi
    simp [numOfReviews, ht, hs, hi]
  · intro page p hp
    unfold parse_single_product at hp
    repeat' split at hp
    all_goals simp_all
    all_goals exact (congrArg Product.num_of_reviews hp).symm

/-- Witness for C8: `cardA` has no review element and gets 0; `cardB`'s
review text "2 reviews" yields 2. -/
theorem C8_reviews_default_and_parse_witness :
    numOfReviews cardA = Except.ok 0 ∧ numOfReviews cardB = Except.ok 2 :=
  ⟨(C8_reviews_default_and_parse cardA).1 rfl,
   (C8_reviews_default_and_parse cardB).2.1 "2 reviews" "2" ["reviews"] 2
     rfl (by decide) (by decide)⟩

/-- Claim C9: the table written for a record sequence is a header row
(title, description, price, rating, num_of_reviews, additional_info, in
that order) followed by exactly one data row per record, each data row
holding that record's fields in the same column order. -/
theorem C9_csv_header_and_rows (ps : List Product) :
    (write_products_to_csv ps).length = ps.length + 1 ∧
    (write_products_to_csv ps)[0]? =
      some [Cell.str "title", Cell.str "description", Cell.str "price",
            Cell.str "rating", Cell.str "num_of_reviews",
            Cell.str "additional_info"] ∧
    (∀ (i : Nat) (p : Product), ps[i]? = some p →
      (write_products_to_csv ps)[i + 1]? =
        some [Cell.str p.title, Cell.str p.description, Cell.num p.price,
              Cell.int p.rating, Cell.int p.num_of_reviews,
              Cell.info p.additional_info]) := by
  refine ⟨?_, ?_, ?_⟩
  · simp [write_products_to_csv]
  · simp [write_products_to_csv, PRODUCT_FIELDS]
  · intro i p hip
    simp [write_products_to_csv, astuple, hip]

/-- Witness for C9 on a one-record sequence. -/
theorem C9_csv_header_and_rows_witness :
    (write_products_to_csv [prodA])[0 + 1]? =
      some [Cell.str prodA.title, Cell.str prodA.description,
            Cell.num prodA.price, Cell.int prodA.rating,
            Cell.int prodA.num_of_reviews, Cell.info prodA.additional_info] :=
  (C9_csv_header_and_rows [prodA]).2.2 0 prodA rfl

/-- Claim C10: the session handle is a process-wide mutable global with the
get-set law — immediately after `set_driver d`, `get_driver` returns
exactly `d` — and before any `set_driver` call `get_driver` returns the
null session `None`. -/
theorem C10_driver_get_set_law :
    (∀ (d : WebDriver) (s : Option WebDriver),
      get_driver (set_driver d s) = some d) ∧
    get_driver driverStart = none := by
  exact ⟨fun d s => rfl, rfl⟩

end EcomScrape
